import Mathlib

/-!
Verification of the STIAS stock-indicator engine (`stock_indicator.py`).

The engine is a pure transform from two aligned bar tables (a security's
OHLCV and an index's OHLC) to a bundle of derived time series.  We embed it
shallowly:

* A pandas `Series` of floats is modelled as a function `ℕ → Option ℚ`
  (`Ser`): `none` stands for a non-finite cell (NaN, or the ±Inf/NaN results
  of dividing by zero — the claims under study never distinguish the two),
  `some q` for a finite value.  IEEE doubles are idealised as exact
  rationals.  A boolean series is `ℕ → Bool`.
* Each primitive of the class (`calculate_ema`, `calculate_sma`,
  `calculate_hhv`, …) becomes a total Lean function on `Ser`.  The
  exponential smoothers reproduce the state machine of pandas
  `ewm(..., adjust=False, ignore_na=False).mean()` (carry the previous mean
  over NaN cells, decaying its weight by `1-α` per step); the rolling
  operators reproduce `rolling(window=p)` with its default
  `min_periods = p` (a cell is produced only when the trailing window is
  full and free of NaN).
* pandas comparisons involving NaN are false; `&` between a boolean series
  and a float series coerces the float cells to truthiness (NaN ↦ False,
  otherwise `≠ 0`), which is how the engine's own 100-bar smoke test
  (`test_mock.py`) exercises line 246.
* Strings and column validation of `StockIndicator.__init__` are modelled
  verbatim; `compute` packages validation plus the result dictionary of
  `calculate_all_indicators`.
-/

namespace STIAS

/-- A pandas float series: position ↦ finite value or non-finite marker. -/
abbrev Ser := ℕ → Option ℚ

/-! ### Cell-level arithmetic (NaN propagates, division by zero is non-finite) -/

def qadd : Option ℚ → Option ℚ → Option ℚ
  | some a, some b => some (a + b)
  | _, _ => none

def qsub : Option ℚ → Option ℚ → Option ℚ
  | some a, some b => some (a - b)
  | _, _ => none

def qmul : Option ℚ → Option ℚ → Option ℚ
  | some a, some b => some (a * b)
  | _, _ => none

/-- Division; a zero denominator yields a non-finite cell (IEEE ±Inf or NaN,
collapsed to the single non-finite marker). -/
def qdiv : Option ℚ → Option ℚ → Option ℚ
  | some a, some b => if b = 0 then none else some (a / b)
  | _, _ => none

/-! ### Cell-level comparisons: any comparison with a non-finite cell is False,
as in pandas. -/

def qlt : Option ℚ → Option ℚ → Bool
  | some a, some b => decide (a < b)
  | _, _ => false

def qle : Option ℚ → Option ℚ → Bool
  | some a, some b => decide (a ≤ b)
  | _, _ => false

def qgt : Option ℚ → Option ℚ → Bool
  | some a, some b => decide (b < a)
  | _, _ => false

def qge : Option ℚ → Option ℚ → Bool
  | some a, some b => decide (b ≤ a)
  | _, _ => false

def qeq : Option ℚ → Option ℚ → Bool
  | some a, some b => decide (a = b)
  | _, _ => false

/-- pandas truthiness coercion applied to a float cell by `&`:
NaN ↦ False, a finite value ↦ (value ≠ 0). -/
def truthy : Option ℚ → Bool
  | some a => decide (a ≠ 0)
  | none => false

/-! ### Series-level combinators -/

def sC (x : ℚ) : Ser := fun _ => some x

def sAdd (f g : Ser) : Ser := fun i => qadd (f i) (g i)

def sSub (f g : Ser) : Ser := fun i => qsub (f i) (g i)

def sMul (f g : Ser) : Ser := fun i => qmul (f i) (g i)

def sDiv (f g : Ser) : Ser := fun i => qdiv (f i) (g i)

/-- A pandas boolean series viewed numerically (True ↦ 1, False ↦ 0), the
coercion pandas applies when comparing or summing booleans. -/
def boolSer (c : ℕ → Bool) : Ser := fun i => some (if c i then 1 else 0)

/-! ### Exponential smoothing: pandas `ewm(..., adjust=False).mean()`

State = (carried mean or `none` before the first observation, weight of the
carried mean).  Per step the carried weight decays by `1-α`
(`ignore_na=False`); an observation is folded in with weight `α` and the
carried weight resets to 1.  Leading NaNs give NaN outputs. -/

def ewmStep (a : ℚ) : Option ℚ × ℚ → Option ℚ → Option ℚ × ℚ
  | (none, ow), none => (none, ow)
  | (none, _), some c => (some c, 1)
  | (some w, ow), none => (some w, ow * (1 - a))
  | (some w, ow), some c =>
      (some ((ow * (1 - a) * w + a * c) / (ow * (1 - a) + a)), 1)

def ewmState (f : Ser) (a : ℚ) : ℕ → Option ℚ × ℚ
  | 0 => (f 0, 1)
  | i + 1 => ewmStep a (ewmState f a i) (f (i + 1))

def ewmMean (f : Ser) (a : ℚ) : Ser := fun i => (ewmState f a i).1

/-- `calculate_ema(data, period)` = `data.ewm(span=period, adjust=False).mean()`;
span-based decay `α = 2/(period+1)`. -/
def calculate_ema (f : Ser) (p : ℕ) : Ser := ewmMean f (2 / ((p : ℚ) + 1))

/-- `calculate_sma(data, period, weight)` =
`data.ewm(alpha=weight/period, adjust=False).mean()`. -/
def calculate_sma (f : Ser) (p : ℕ) (w : ℚ) : Ser := ewmMean f (w / (p : ℚ))

/-! ### Rolling-window operators: pandas `rolling(window=p)` with the default
`min_periods = p` — a value appears only once the trailing window of `p`
cells is full and contains no NaN. -/

/-- The trailing window of `p` cells ending at `i` (only used when `p ≤ i+1`). -/
def window (f : Ser) (p i : ℕ) : List (Option ℚ) :=
  (List.range p).map fun k => f (i + 1 - p + k)

/-- Collect a window of cells; `none` if any cell is non-finite. -/
def seqOpt : List (Option ℚ) → Option (List ℚ)
  | [] => some []
  | none :: _ => none
  | some v :: rest => (seqOpt rest).map fun l => v :: l

def roll (g : List ℚ → ℚ) (p : ℕ) (f : Ser) : Ser := fun i =>
  if p ≤ i + 1 then (seqOpt (window f p i)).map g else none

def listMax : List ℚ → ℚ
  | [] => 0
  | x :: xs => xs.foldl max x

def listMin : List ℚ → ℚ
  | [] => 0
  | x :: xs => xs.foldl min x

/-- `calculate_hhv(data, period)` = `data.rolling(window=period).max()`. -/
def calculate_hhv (f : Ser) (p : ℕ) : Ser := roll listMax p f

/-- `calculate_llv(data, period)` = `data.rolling(window=period).min()`. -/
def calculate_llv (f : Ser) (p : ℕ) : Ser := roll listMin p f

/-- `data.rolling(window=period).mean()` (used inline for `BB`, `VAR22`, `VAR23`). -/
def rollingMean (f : Ser) (p : ℕ) : Ser :=
  roll (fun l => l.sum / (l.length : ℚ)) p f

/-- `calculate_sum(data, period)` = `data.rolling(window=period).sum()`. -/
def calculate_sum (f : Ser) (p : ℕ) : Ser := roll List.sum p f

/-- `calculate_avedev(data, period)` =
`rolling(period).apply(lambda x: np.mean(np.abs(x - np.mean(x))))`. -/
def calculate_avedev (f : Ser) (p : ℕ) : Ser :=
  roll (fun l => ((l.map fun x => |x - l.sum / (l.length : ℚ)|).sum) / (l.length : ℚ)) p f

/-- `calculate_ref(data, period)` = `data.shift(period)`. -/
def calculate_ref (f : Ser) (p : ℕ) : Ser := fun i =>
  if p ≤ i then f (i - p) else none

/-- `calculate_cross(data1, data2)` =
`(data1 > data2) & (data1.shift(1) <= data2.shift(1))` (as 0/1 ints); a shifted
cell at position 0 is NaN, so the output at position 0 is false. -/
def calculate_cross (f g : Ser) : ℕ → Bool := fun i =>
  qgt (f i) (g i) && qle (calculate_ref f 1 i) (calculate_ref g 1 i)

/-- `calculate_count(condition, period)` = `condition.rolling(window=period).sum()`
with booleans summed as 0/1. -/
def calculate_count (c : ℕ → Bool) (p : ℕ) : Ser := calculate_sum (boolSer c) p

/-- `calculate_bars_count(data)` = `pd.Series(range(1, len(data)+1))`:
the 1-based position, independent of the data values. -/
def calculate_bars_count (_data : Ser) : Ser := fun i => some ((i : ℚ) + 1)

/-- `any(condition.iloc[max(0, i-period):i])` — is any cell of `cond` true on
positions `[lo, hi)`? -/
def anyRange (cond : ℕ → Bool) (lo hi : ℕ) : Bool :=
  (List.range (hi - lo)).any fun k => cond (lo + k)

/-- `calculate_filter(condition, period)`: position 0 is copied; a later true
is dropped when any cell of the *original* condition in the trailing
`period`-window was true. -/
def calculate_filter (cond : ℕ → Bool) (p : ℕ) : ℕ → Bool
  | 0 => cond 0
  | j + 1 => cond (j + 1) && ! anyRange cond (j + 1 - p) (j + 1)

/-! ### Input data model

The two bar tables, already aligned on one timestamp axis (the caller's
responsibility per the data model).  Cells may be NaN (`none`). -/

structure MarketData where
  C : Ser
  H : Ser
  L : Ser
  O : Ser
  VOL : Ser
  INDEXC : Ser
  INDEXH : Ser
  INDEXL : Ser

/-! ### The indicator pipeline of `calculate_all_indicators`, formula by
formula, in source order. -/

/-- `CAPITAL = VOL * 100` (capital proxy). -/
def CAPITAL (d : MarketData) : Ser := sMul d.VOL (sC 100)

/-- `V1 = (C*2 + H + L) / 4 * 10`. -/
def V1 (d : MarketData) : Ser :=
  sMul (sDiv (sAdd (sAdd (sMul d.C (sC 2)) d.H) d.L) (sC 4)) (sC 10)

/-- `V2 = EMA(V1,13) - EMA(V1,34)`. -/
def V2 (d : MarketData) : Ser :=
  sSub (calculate_ema (V1 d) 13) (calculate_ema (V1 d) 34)

/-- `V3 = EMA(V2,5)`. -/
def V3 (d : MarketData) : Ser := calculate_ema (V2 d) 5

/-- `V4 = 2 * (V2 - V3) * 5.5`. -/
def V4 (d : MarketData) : Ser :=
  sMul (sMul (sC 2) (sSub (V2 d) (V3 d))) (sC (11 / 2))

/-- `V5 = (HHV(INDEXH,8) - INDEXC) / (HHV(INDEXH,8) - LLV(INDEXL,8)) * 8`. -/
def V5 (d : MarketData) : Ser :=
  sMul (sDiv (sSub (calculate_hhv d.INDEXH 8) d.INDEXC)
      (sSub (calculate_hhv d.INDEXH 8) (calculate_llv d.INDEXL 8))) (sC 8)

/-- `V6 = EMA(3*V5 - 2*SMA(V5,18,1), 5)`. -/
def V6 (d : MarketData) : Ser :=
  calculate_ema (sSub (sMul (sC 3) (V5 d)) (sMul (sC 2) (calculate_sma (V5 d) 18 1))) 5

/-- `V7 = (INDEXC - LLV(INDEXL,8)) / (HHV(INDEXH,8) - LLV(INDEXL,8)) * 10`. -/
def V7 (d : MarketData) : Ser :=
  sMul (sDiv (sSub d.INDEXC (calculate_llv d.INDEXL 8))
      (sSub (calculate_hhv d.INDEXH 8) (calculate_llv d.INDEXL 8))) (sC 10)

/-- `V8 = (INDEXC*2 + INDEXH + INDEXL) / 4`. -/
def V8 (d : MarketData) : Ser :=
  sDiv (sAdd (sAdd (sMul d.INDEXC (sC 2)) d.INDEXH) d.INDEXL) (sC 4)

/-- `V9 = EMA(V8,13) - EMA(V8,34)`. -/
def V9 (d : MarketData) : Ser :=
  sSub (calculate_ema (V8 d) 13) (calculate_ema (V8 d) 34)

/-- `VA = EMA(V9,3)`. -/
def VA (d : MarketData) : Ser := calculate_ema (V9 d) 3

/-- `VB = (V9 - VA) / 2`. -/
def VB (d : MarketData) : Ser := sDiv (sSub (V9 d) (VA d)) (sC 2)

/-- `price_range = (C - LLV(L,55)) / (HHV(H,55) - LLV(L,55)) * 100`. -/
def price_range (d : MarketData) : Ser :=
  sMul (sDiv (sSub d.C (calculate_llv d.L 55))
      (sSub (calculate_hhv d.H 55) (calculate_llv d.L 55))) (sC 100)

/-- `V11 = 3*SMA(price_range,5,1) - 2*SMA(SMA(price_range,5,1),3,1)`. -/
def V11 (d : MarketData) : Ser :=
  sSub (sMul (sC 3) (calculate_sma (price_range d) 5 1))
    (sMul (sC 2) (calculate_sma (calculate_sma (price_range d) 5 1) 3 1))

/-- `V12 = (EMA(V11,3) - REF(EMA(V11,3),1)) / REF(EMA(V11,3),1) * 100`. -/
def V12 (d : MarketData) : Ser :=
  sMul (sDiv (sSub (calculate_ema (V11 d) 3) (calculate_ref (calculate_ema (V11 d) 3) 1))
      (calculate_ref (calculate_ema (V11 d) 3) 1)) (sC 100)

/-- `buy_condition = (EMA(V11,3) <= 13) & (V12 > 13)`. -/
def buy_condition (d : MarketData) : ℕ → Bool := fun i =>
  qle (calculate_ema (V11 d) 3 i) (some 13) && qgt (V12 d i) (some 13)

/-- `BB1 = buy_condition & FILTER(buy_condition, 10)`. -/
def BB1 (d : MarketData) : ℕ → Bool := fun i =>
  buy_condition d i && calculate_filter (buy_condition d) 10 i

/-- `sell_condition = (EMA(V11,3) > 60) & (EMA(V11,3) > REF(EMA(V11,3),1))`. -/
def sell_condition (d : MarketData) : ℕ → Bool := fun i =>
  qgt (calculate_ema (V11 d) 3 i) (some 60) &&
    qgt (calculate_ema (V11 d) 3 i) (calculate_ref (calculate_ema (V11 d) 3) 1 i)

/-- The condition `(EMA(V11,3) >= 90) & V12` of line 246; the float series
`V12` enters a boolean `&`, so pandas coerces its cells to truthiness. -/
def cc1_condition (d : MarketData) : ℕ → Bool := fun i =>
  qge (calculate_ema (V11 d) 3 i) (some 90) && truthy (V12 d i)

/-- `CC1 = (EMA(V11,3) >= 90) & V12 & FILTER((EMA(V11,3) >= 90) & V12, 10)`. -/
def CC1 (d : MarketData) : ℕ → Bool := fun i =>
  cc1_condition d i && calculate_filter (cc1_condition d) 10 i

/-- `AA = (O + H + L + C) / 4`. -/
def AA (d : MarketData) : Ser := sDiv (sAdd (sAdd (sAdd d.O d.H) d.L) d.C) (sC 4)

/-- `BB = AA.rolling(window=3).mean()`. -/
def BBser (d : MarketData) : Ser := rollingMean (AA d) 3

/-- `up_volume = np.where(AA > REF(AA,1), AA*VOL, 0)` (a NaN comparison is
false, so such cells take the 0 branch). -/
def up_volume (d : MarketData) : Ser := fun i =>
  if qgt (AA d i) (calculate_ref (AA d) 1 i) then qmul (AA d i) (d.VOL i) else some 0

/-- `down_volume = np.where(AA < REF(AA,1), AA*VOL, 0)`. -/
def down_volume (d : MarketData) : Ser := fun i =>
  if qlt (AA d i) (calculate_ref (AA d) 1 i) then qmul (AA d i) (d.VOL i) else some 0

/-- `CC = SUM(up_volume,4) / SUM(down_volume,4)`. -/
def CCser (d : MarketData) : Ser :=
  sDiv (calculate_sum (up_volume d) 4) (calculate_sum (down_volume d) 4)

/-- `DD = REF(100 - (100 / (1 + CC)), 1)`. -/
def DDser (d : MarketData) : Ser :=
  calculate_ref (sSub (sC 100) (sDiv (sC 100) (sAdd (sC 1) (CCser d)))) 1

/-- `A1 = HHV(AA,10)`. -/
def A1 (d : MarketData) : Ser := calculate_hhv (AA d) 10

/-- `A2 = LLV(AA,30)`. -/
def A2 (d : MarketData) : Ser := calculate_llv (AA d) 30

/-- `A3 = A1 - A2`. -/
def A3 (d : MarketData) : Ser := sSub (A1 d) (A2 d)

/-- `A4 = EMA((AA - A2)/A3, 1) * 100`. -/
def A4 (d : MarketData) : Ser :=
  sMul (calculate_ema (sDiv (sSub (AA d) (A2 d)) (A3 d)) 1) (sC 100)

/-- `B1 = HHV(AA,16)`. -/
def B1 (d : MarketData) : Ser := calculate_hhv (AA d) 16

/-- `B2 = LLV(AA,90)`. -/
def B2 (d : MarketData) : Ser := calculate_llv (AA d) 90

/-- `B3 = B1 - B2`. -/
def B3 (d : MarketData) : Ser := sSub (B1 d) (B2 d)

/-- `B4 = EMA((AA - B2)/B3, 1) * 100` — the mid-term trend series. -/
def B4 (d : MarketData) : Ser :=
  sMul (calculate_ema (sDiv (sSub (AA d) (B2 d)) (B3 d)) 1) (sC 100)

/-- `C1 = HHV(AA,30)`. -/
def C1ser (d : MarketData) : Ser := calculate_hhv (AA d) 30

/-- `C2 = LLV(AA,240)`. -/
def C2ser (d : MarketData) : Ser := calculate_llv (AA d) 240

/-- `C3 = C1 - C2`. -/
def C3ser (d : MarketData) : Ser := sSub (C1ser d) (C2ser d)

/-- `C4 = EMA((AA - C2)/C3, 1) * 100`. -/
def C4ser (d : MarketData) : Ser :=
  sMul (calculate_ema (sDiv (sSub (AA d) (C2ser d)) (C3ser d)) 1) (sC 100)

/-- `VARE = REF(L,1) * 0.9`. -/
def VARE (d : MarketData) : Ser := sMul (calculate_ref d.L 1) (sC (9 / 10))

/-- `VARF = L * 0.9`. -/
def VARF (d : MarketData) : Ser := sMul d.L (sC (9 / 10))

/-- `VAR10 = (VARF*VOL + VARE*(CAPITAL - VOL)) / CAPITAL`. -/
def VAR10 (d : MarketData) : Ser :=
  sDiv (sAdd (sMul (VARF d) d.VOL) (sMul (VARE d) (sSub (CAPITAL d) d.VOL))) (CAPITAL d)

/-- `VAR11 = EMA(VAR10, 30)`. -/
def VAR11 (d : MarketData) : Ser := calculate_ema (VAR10 d) 30

/-- `VAR12 = C - REF(C,1)`. -/
def VAR12 (d : MarketData) : Ser := sSub d.C (calculate_ref d.C 1)

/-- `VAR13 = np.maximum(VAR12, 0)` (NaN stays NaN). -/
def VAR13 (d : MarketData) : Ser := fun i => (VAR12 d i).map fun v => max v 0

/-- `VAR14 = np.abs(VAR12)` (NaN stays NaN). -/
def VAR14 (d : MarketData) : Ser := fun i => (VAR12 d i).map fun v => |v|

/-- `VAR15 = SMA(VAR13,7,1) / SMA(VAR14,7,1) * 100`. -/
def VAR15 (d : MarketData) : Ser :=
  sMul (sDiv (calculate_sma (VAR13 d) 7 1) (calculate_sma (VAR14 d) 7 1)) (sC 100)

/-- `VAR16 = SMA(VAR13,13,1) / SMA(VAR14,13,1) * 100`. -/
def VAR16 (d : MarketData) : Ser :=
  sMul (sDiv (calculate_sma (VAR13 d) 13 1) (calculate_sma (VAR14 d) 13 1)) (sC 100)

/-- `VAR17 = BARSCOUNT(C)`. -/
def VAR17 (d : MarketData) : Ser := calculate_bars_count d.C

/-- `VAR18 = SMA(np.maximum(VAR12,0),6,1) / SMA(np.abs(VAR12),6,1) * 100`
(the source rebuilds the same `np.maximum`/`np.abs` series as for
`VAR13`/`VAR14`). -/
def VAR18 (d : MarketData) : Ser :=
  sMul (sDiv (calculate_sma (VAR13 d) 6 1) (calculate_sma (VAR14 d) 6 1)) (sC 100)

/-- `VAR19 = (-200) * (HHV(H,60) - C) / (HHV(H,60) - LLV(L,60)) + 100`. -/
def VAR19 (d : MarketData) : Ser :=
  sAdd (sMul (sC (-200)) (sDiv (sSub (calculate_hhv d.H 60) d.C)
      (sSub (calculate_hhv d.H 60) (calculate_llv d.L 60)))) (sC 100)

/-- `VAR1A = (C - LLV(L,15)) / (HHV(H,15) - LLV(L,15)) * 100`. -/
def VAR1A (d : MarketData) : Ser :=
  sMul (sDiv (sSub d.C (calculate_llv d.L 15))
      (sSub (calculate_hhv d.H 15) (calculate_llv d.L 15))) (sC 100)

/-- `VAR1B = SMA((SMA(VAR1A,4,1) - 50) * 2, 3, 1)`. -/
def VAR1B (d : MarketData) : Ser :=
  calculate_sma (sMul (sSub (calculate_sma (VAR1A d) 4 1) (sC 50)) (sC 2)) 3 1

/-- `VAR1C = (INDEXC - LLV(INDEXL,14)) / (HHV(INDEXH,14) - LLV(INDEXL,14)) * 100`. -/
def VAR1C (d : MarketData) : Ser :=
  sMul (sDiv (sSub d.INDEXC (calculate_llv d.INDEXL 14))
      (sSub (calculate_hhv d.INDEXH 14) (calculate_llv d.INDEXL 14))) (sC 100)

/-- `VAR1D = SMA(VAR1C,4,1)`. -/
def VAR1D (d : MarketData) : Ser := calculate_sma (VAR1C d) 4 1

/-- `VAR1E = SMA(VAR1D,3,1)`. -/
def VAR1E (d : MarketData) : Ser := calculate_sma (VAR1D d) 3 1

/-- `VAR1F = (HHV(H,30) - C) / C * 100`. -/
def VAR1F (d : MarketData) : Ser :=
  sMul (sDiv (sSub (calculate_hhv d.H 30) d.C) d.C) (sC 100)

/-- `VAR20 = (VAR18<=25) & (VAR19<-95) & (VAR1F>20) & (VAR1B<-30) & (VAR1E<30)
& (VAR11-C >= -0.25) & (VAR15<22) & (VAR16<28) & (VAR17>50)`. -/
def VAR20 (d : MarketData) : ℕ → Bool := fun i =>
  qle (VAR18 d i) (some 25) && qlt (VAR19 d i) (some (-95)) &&
    qgt (VAR1F d i) (some 20) && qlt (VAR1B d i) (some (-30)) &&
    qlt (VAR1E d i) (some 30) && qge (sSub (VAR11 d) d.C i) (some (-(1 / 4))) &&
    qlt (VAR15 d i) (some 22) && qlt (VAR16 d i) (some 28) &&
    qgt (VAR17 d i) (some 50)

/-- `VAR21 = (H + L + C) / 3`. -/
def VAR21 (d : MarketData) : Ser := sDiv (sAdd (sAdd d.H d.L) d.C) (sC 3)

/-- `VAR22 = (VAR21 - VAR21.rolling(14).mean()) / (0.015 * AVEDEV(VAR21,14))`. -/
def VAR22 (d : MarketData) : Ser :=
  sDiv (sSub (VAR21 d) (rollingMean (VAR21 d) 14))
    (sMul (sC (3 / 200)) (calculate_avedev (VAR21 d) 14))

/-- `VAR23 = (VAR21 - VAR21.rolling(70).mean()) / (0.015 * AVEDEV(VAR21,70))`. -/
def VAR23 (d : MarketData) : Ser :=
  sDiv (sSub (VAR21 d) (rollingMean (VAR21 d) 70))
    (sMul (sC (3 / 200)) (calculate_avedev (VAR21 d) 70))

/-- `VAR20 == 1` — pandas compares the boolean series numerically to 1. -/
def var20_eq_one (d : MarketData) : ℕ → Bool := fun i =>
  qeq (boolSer (VAR20 d) i) (some 1)

/-- `super_buy_signal = CROSS(VAR20, 0.5) & (COUNT(VAR20 == 1, 10) == 1)`. -/
def super_buy_signal (d : MarketData) : ℕ → Bool := fun i =>
  calculate_cross (boolSer (VAR20 d)) (sC (1 / 2)) i &&
    qeq (calculate_count (var20_eq_one d) 10 i) (some 1)

/-! ### Result bundle, validation, entry points -/

/-- Materialise the first `n` cells of a series (the series of a bundle all
live on the common `n`-bar axis). -/
def materialize (f : Ser) (n : ℕ) : List (Option ℚ) := (List.range n).map f

/-- The named series stored in the `results` dictionary of
`calculate_all_indicators`, in source order; boolean series are stored
through their 0/1 view. -/
def bundleSeries (d : MarketData) : List (String × Ser) :=
  [("V1", V1 d), ("V2", V2 d), ("V3", V3 d), ("V4", V4 d),
   ("V5", V5 d), ("V6", V6 d), ("V7", V7 d),
   ("V8", V8 d), ("V9", V9 d), ("VA", VA d), ("VB", VB d),
   ("V11", V11 d), ("V12", V12 d),
   ("buy_signal", boolSer (buy_condition d)),
   ("BB1", boolSer (BB1 d)),
   ("sell_signal", boolSer (sell_condition d)),
   ("CC1", boolSer (CC1 d)),
   ("AA", AA d), ("BB", BBser d), ("CC", CCser d), ("DD", DDser d),
   ("A1", A1 d), ("A2", A2 d), ("A3", A3 d), ("A4", A4 d),
   ("B1", B1 d), ("B2", B2 d), ("B3", B3 d), ("B4", B4 d),
   ("C1", C1ser d), ("C2", C2ser d), ("C3", C3ser d), ("C4", C4ser d),
   ("VAR20", boolSer (VAR20 d)),
   ("super_buy_signal", boolSer (super_buy_signal d)),
   ("price", d.C), ("volume", d.VOL)]

/-- The `results` dictionary over the common `n`-bar axis. -/
def resultsBundle (d : MarketData) (n : ℕ) : List (String × List (Option ℚ)) :=
  (bundleSeries d).map fun p => (p.1, materialize p.2 n)

def required_stock_cols : List String := ["Open", "High", "Low", "Close", "Volume"]

def required_index_cols : List String := ["Open", "High", "Low", "Close"]

/-- The upfront column validation of `StockIndicator.__init__`: a missing
security column raises first, then a missing index column; no property of
the rows (in particular no minimum length) is inspected. -/
def validate (stockCols indexCols : List String) : Except String Unit :=
  if required_stock_cols.all (fun c => stockCols.contains c) then
    if required_index_cols.all (fun c => indexCols.contains c) then Except.ok ()
    else Except.error "指数数据缺少必要的OHLC列"
  else Except.error "股票数据缺少必要的OHLCV列"

/-- `compute(security_bars, index_bars)`: construct the engine (which
validates the columns) and run `calculate_all_indicators`. -/
def compute (stockCols indexCols : List String) (d : MarketData) (n : ℕ) :
    Except String (List (String × List (Option ℚ))) :=
  match validate stockCols indexCols with
  | Except.ok _ => Except.ok (resultsBundle d n)
  | Except.error e => Except.error e

/-- The trend-strength label of `get_summary`, applied to the final `B4`
cell: `'强' if B4 > 70 else '中' if B4 > 30 else '弱'`. -/
def trend_strength (b4 : Option ℚ) : String :=
  if qgt b4 (some 70) then "强" else if qgt b4 (some 30) then "中" else "弱"

/-- `get_summary()['trend_strength']` for an `n`-bar bundle: the label of
`B4.iloc[-1]`, the cell at position `n-1`. -/
def summary_trend_strength (d : MarketData) (n : ℕ) : String :=
  trend_strength (B4 d (n - 1))

/-! ### Spec-side definitions

These follow the wording of the specification (not the source) and are used
to compare the code against the spec's formulas. -/

/-- The spec's EMA recursion: `y₀ = x₀`, `yₜ = α·xₜ + (1-α)·yₜ₋₁`. -/
def emaRec (x : ℕ → ℚ) (a : ℚ) : ℕ → ℚ
  | 0 => x 0
  | i + 1 => a * x (i + 1) + (1 - a) * emaRec x a i

/-- Claim C1's stated formula for `V8`: the index's weighted typical price
times 10 (the `V1` construction applied to the index). -/
def specV8_claimed (xc xh xl : ℕ → ℚ) : ℕ → ℚ := fun i =>
  (xc i * 2 + xh i + xl i) / 4 * 10

/-- Amended `V8`: the index's weighted typical price, without the ×10. -/
def specV8_amended (xc xh xl : ℕ → ℚ) : ℕ → ℚ := fun i =>
  (xc i * 2 + xh i + xl i) / 4

/-- Amended `V9 = EMA(V8,13) - EMA(V8,34)` (α = 2/14 resp. 2/35). -/
def specV9_amended (xc xh xl : ℕ → ℚ) : ℕ → ℚ := fun i =>
  emaRec (specV8_amended xc xh xl) (2 / 14) i -
    emaRec (specV8_amended xc xh xl) (2 / 35) i

/-- Amended `VA = EMA(V9,3)` (α = 2/4), period 3 rather than the claimed 5. -/
def specVA_amended (xc xh xl : ℕ → ℚ) : ℕ → ℚ :=
  emaRec (specV9_amended xc xh xl) (2 / 4)

/-- Amended `VB = (V9 - VA) / 2` rather than the claimed `2·(V9-VA)·5.5`. -/
def specVB_amended (xc xh xl : ℕ → ℚ) : ℕ → ℚ := fun i =>
  (specV9_amended xc xh xl i - specVA_amended xc xh xl i) / 2

/-- A fully NaN-free constant input: every cell of every column is 1. -/
def dOnes : MarketData :=
  { C := fun _ => some 1, H := fun _ => some 1, L := fun _ => some 1,
    O := fun _ => some 1, VOL := fun _ => some 1, INDEXC := fun _ => some 1,
    INDEXH := fun _ => some 1, INDEXL := fun _ => some 1 }

/-! ### Helper lemmas -/

theorem ewmState_allSome (x : ℕ → ℚ) (a : ℚ) (i : ℕ) :
    ewmState (fun j => some (x j)) a i = (some (emaRec x a i), 1) := by
  induction i with
  | zero => rfl
  | succ i ih =>
    rw [ewmState, ih]
    show ewmStep a (some (emaRec x a i), 1) (some (x (i + 1))) = _
    rw [ewmStep]
    have hd : (1 : ℚ) * (1 - a) + a = 1 := by ring
    rw [Prod.mk.injEq]
    refine ⟨?_, rfl⟩
    rw [hd, div_one, emaRec]
    ring_nf

/-- On a NaN-free series, pandas `ewm(adjust=False).mean()` is exactly the
spec's recursion. -/
theorem ewmMean_allSome (x : ℕ → ℚ) (a : ℚ) (i : ℕ) :
    ewmMean (fun j => some (x j)) a i = some (emaRec x a i) := by
  unfold ewmMean
  rw [ewmState_allSome]

theorem calculate_ema_allSome (x : ℕ → ℚ) (p : ℕ) (i : ℕ) :
    calculate_ema (fun j => some (x j)) p i = some (emaRec x (2 / ((p : ℚ) + 1)) i) := by
  unfold calculate_ema
  exact ewmMean_allSome x _ i

theorem qle_some_iff (o : Option ℚ) (c : ℚ) :
    qle o (some c) = true ↔ ∃ v, o = some v ∧ v ≤ c := by
  cases o <;> simp [qle]

theorem qlt_some_iff (o : Option ℚ) (c : ℚ) :
    qlt o (some c) = true ↔ ∃ v, o = some v ∧ v < c := by
  cases o <;> simp [qlt]

theorem qgt_some_iff (o : Option ℚ) (c : ℚ) :
    qgt o (some c) = true ↔ ∃ v, o = some v ∧ c < v := by
  cases o <;> simp [qgt]

theorem qge_some_iff (o : Option ℚ) (c : ℚ) :
    qge o (some c) = true ↔ ∃ v, o = some v ∧ c ≤ v := by
  cases o <;> simp [qge]

theorem qeq_some_iff (o : Option ℚ) (c : ℚ) :
    qeq o (some c) = true ↔ o = some c := by
  cases o <;> simp [qeq]

theorem qge_sSub_iff (f g : Ser) (i : ℕ) (c : ℚ) :
    qge (sSub f g i) (some c) = true ↔
      ∃ a b, f i = some a ∧ g i = some b ∧ c ≤ a - b := by
  cases hf : f i <;> cases hg : g i <;> simp [sSub, qsub, qge, hf, hg]

theorem anyRange_eq_false_iff (cond : ℕ → Bool) (lo hi : ℕ) :
    anyRange cond lo hi = false ↔ ∀ k, lo ≤ k → k < hi → cond k = false := by
  unfold anyRange
  rw [List.any_eq_false]
  constructor
  · intro h k h1 h2
    have hk : k - lo < hi - lo := by omega
    have hmem := h (k - lo) (List.mem_range.mpr hk)
    have he : lo + (k - lo) = k := by omega
    rw [he] at hmem
    exact Bool.eq_false_iff.mpr hmem
  · intro h k hk
    have hk2 := List.mem_range.mp hk
    have hc : cond (lo + k) = false := h (lo + k) (by omega) (by omega)
    simp [hc]

theorem calculate_filter_imp_cond (cond : ℕ → Bool) (p i : ℕ)
    (h : calculate_filter cond p i = true) : cond i = true := by
  cases i with
  | zero => exact h
  | succ j =>
    have h0 : (cond (j + 1) && ! anyRange cond (j + 1 - p) (j + 1)) = true := h
    exact (by simpa using h0 : _ ∧ _).1

theorem calculate_filter_succ_no_recent (cond : ℕ → Bool) (p j : ℕ)
    (h : calculate_filter cond p (j + 1) = true) :
    ∀ k, j + 1 - p ≤ k → k < j + 1 → cond k = false := by
  have h0 : (cond (j + 1) && ! anyRange cond (j + 1 - p) (j + 1)) = true := h
  have h2 : (! anyRange cond (j + 1 - p) (j + 1)) = true := (by simpa using h0 : _ ∧ _).2
  have hA : anyRange cond (j + 1 - p) (j + 1) = false := by
    cases hA : anyRange cond (j + 1 - p) (j + 1)
    · rfl
    · rw [hA] at h2
      exact Bool.noConfusion h2
  exact (anyRange_eq_false_iff cond _ _).mp hA

/-- Two true outputs of `FILTER` never lie within `p` samples of each other. -/
theorem calculate_filter_not_both (cond : ℕ → Bool) (p i j : ℕ) (hij : i < j)
    (hjp : j ≤ i + p) (hi : calculate_filter cond p i = true) :
    calculate_filter cond p j = false := by
  cases j with
  | zero => omega
  | succ k =>
    by_contra hj
    rw [Bool.not_eq_false] at hj
    have hcond := calculate_filter_imp_cond cond p i hi
    have hno := calculate_filter_succ_no_recent cond p k hj i (by omega) (by omega)
    rw [hcond] at hno
    exact Bool.noConfusion hno

/-- A true input with no true input in the trailing `p`-window survives
`FILTER` unchanged. -/
theorem calculate_filter_isolated (cond : ℕ → Bool) (p i : ℕ) (hc : cond i = true)
    (hiso : ∀ k, k < i → i ≤ k + p → cond k = false) :
    calculate_filter cond p i = true := by
  cases i with
  | zero => exact hc
  | succ j =>
    show (cond (j + 1) && ! anyRange cond (j + 1 - p) (j + 1)) = true
    rw [hc]
    have hA : anyRange cond (j + 1 - p) (j + 1) = false :=
      (anyRange_eq_false_iff cond _ _).mpr fun k h1 h2 => hiso k (by omega) (by omega)
    rw [hA]
    rfl

/-! ### The claims -/

/-- Claim C4: for every boolean condition series and every period `p`, the
output of `FILTER(cond, p)` never contains two true values within `p`
samples of each other, and every true input with no true input among the
trailing `p` samples survives unchanged. -/
theorem claim_C4 (cond : ℕ → Bool) (p : ℕ) :
    (∀ i j, i < j → j ≤ i + p →
      calculate_filter cond p i = true → calculate_filter cond p j = false) ∧
    (∀ i, cond i = true → (∀ k, k < i → i ≤ k + p → cond k = false) →
      calculate_filter cond p i = true) :=
  ⟨fun i j h1 h2 h3 => calculate_filter_not_both cond p i j h1 h2 h3,
   fun i hc hiso => calculate_filter_isolated cond p i hc hiso⟩

/-- A concrete condition series with trues at 0, 2 and 9. -/
def condW : ℕ → Bool := fun i => decide (i = 0 ∨ i = 2 ∨ i = 9)

/-- Witness for claim C4 at `condW` with period 3: the true at 2 is
suppressed (a true sits 2 samples earlier), the isolated true at 9 survives. -/
theorem claim_C4_witness :
    calculate_filter condW 3 2 = false ∧ calculate_filter condW 3 9 = true :=
  ⟨(claim_C4 condW 3).1 0 2 (by decide) (by decide) (by decide),
   (claim_C4 condW 3).2 9 (by decide) (by decide)⟩

/-- Claim C5: `calculate_ema(x, p)` on a real-valued (NaN-free) series is the
recursion with `α = 2/(p+1)`: position 0 returns `x 0` exactly, position
`t > 0` returns `α·x[t] + (1-α)·y[t-1]` (this is `emaRec`), and every
position carries a value (`some …`, never a warm-up NaN). -/
theorem claim_C5 (x : ℕ → ℚ) (p : ℕ) (i : ℕ) :
    calculate_ema (fun j => some (x j)) p i = some (emaRec x (2 / ((p : ℚ) + 1)) i) :=
  calculate_ema_allSome x p i

/-- Claim C8: `FILTER` is idempotent — applying it to its own output with the
same period changes nothing. -/
theorem claim_C8 (cond : ℕ → Bool) (p i : ℕ) :
    calculate_filter (calculate_filter cond p) p i = calculate_filter cond p i := by
  cases i with
  | zero => rfl
  | succ j =>
    show (calculate_filter cond p (j + 1) &&
        ! anyRange (calculate_filter cond p) (j + 1 - p) (j + 1)) =
      calculate_filter cond p (j + 1)
    cases hy : calculate_filter cond p (j + 1) with
    | false => rfl
    | true =>
      have hA : anyRange (calculate_filter cond p) (j + 1 - p) (j + 1) = false := by
        apply (anyRange_eq_false_iff _ _ _).mpr
        intro k h1 h2
        by_contra hk
        rw [Bool.not_eq_false] at hk
        have hfalse := calculate_filter_not_both cond p k (j + 1) h2 (by omega) hk
        rw [hy] at hfalse
        exact Bool.noConfusion hfalse
      rw [hA]
      rfl

/-- Claim C3: the super-buy precondition `VAR20` holds at a bar exactly when
all nine threshold tests hold there simultaneously: `VAR18 ≤ 25`,
`VAR19 < -95`, `VAR1F > 20`, `VAR1B < -30`, `VAR1E < 30`,
`VAR11 - C ≥ -0.25`, `VAR15 < 22`, `VAR16 < 28`, `VAR17 > 50`. -/
theorem claim_C3 (d : MarketData) (i : ℕ) :
    VAR20 d i = true ↔
      ((∃ v, VAR18 d i = some v ∧ v ≤ 25) ∧
       (∃ v, VAR19 d i = some v ∧ v < -95) ∧
       (∃ v, VAR1F d i = some v ∧ 20 < v) ∧
       (∃ v, VAR1B d i = some v ∧ v < -30) ∧
       (∃ v, VAR1E d i = some v ∧ v < 30) ∧
       (∃ a c, VAR11 d i = some a ∧ d.C i = some c ∧ -(1 / 4) ≤ a - c) ∧
       (∃ v, VAR15 d i = some v ∧ v < 22) ∧
       (∃ v, VAR16 d i = some v ∧ v < 28) ∧
       (∃ v, VAR17 d i = some v ∧ 50 < v)) := by
  simp only [VAR20, Bool.and_eq_true, and_assoc, qle_some_iff, qlt_some_iff,
    qgt_some_iff, qge_sSub_iff]

/-- Claim C6: the emitted super-buy signal fires at bar `t` exactly when
`VAR20` rises over 0.5 at `t` (true at `t`, not true at `t-1`, impossible at
`t = 0`) and `COUNT(VAR20, 10)` equals 1 at `t` (exactly one true among the
trailing 10 bars, with the rolling count still NaN before 10 bars exist); in
particular it cannot fire while `VAR20` has been true more than once in the
trailing 10 bars. -/
theorem claim_C6 (d : MarketData) (i : ℕ) :
    super_buy_signal d i = true ↔
      (1 ≤ i ∧ VAR20 d i = true ∧ VAR20 d (i - 1) = false ∧
        calculate_count (VAR20 d) 10 i = some 1) := by
  have hco : var20_eq_one d = VAR20 d := by
    funext j
    cases h : VAR20 d j <;> simp [var20_eq_one, boolSer, qeq, h]
  unfold super_buy_signal calculate_cross
  rw [hco]
  cases i with
  | zero =>
    have hr : calculate_ref (boolSer (VAR20 d)) 1 0 = none := rfl
    have hr2 : calculate_ref (sC (1 / 2)) 1 0 = none := rfl
    rw [hr, hr2]
    simp [qle]
  | succ j =>
    have hr : calculate_ref (boolSer (VAR20 d)) 1 (j + 1) = boolSer (VAR20 d) j := by
      unfold calculate_ref
      rw [if_pos (by omega : 1 ≤ j + 1)]
      simp
    have hr2 : calculate_ref (sC (1 / 2)) 1 (j + 1) = some (1 / 2) := by
      unfold calculate_ref
      rw [if_pos (by omega : 1 ≤ j + 1)]
      rfl
    rw [hr, hr2]
    have h1 : qgt (boolSer (VAR20 d) (j + 1)) (sC (1 / 2) (j + 1)) = VAR20 d (j + 1) := by
      cases h : VAR20 d (j + 1) <;> (simp [boolSer, sC, qgt, h]; try norm_num)
    have h2 : qle (boolSer (VAR20 d) j) (some (1 / 2)) = ! VAR20 d j := by
      cases h : VAR20 d j <;> (simp [boolSer, qle, h]; try norm_num)
    rw [h1, h2]
    simp only [Bool.and_eq_true, Bool.not_eq_true', qeq_some_iff]
    constructor
    · rintro ⟨⟨hv, hvp⟩, hc⟩
      exact ⟨by omega, hv, by simpa using hvp, hc⟩
    · rintro ⟨-, hv, hvp, hc⟩
      exact ⟨⟨hv, by simpa using hvp⟩, hc⟩

/-- Claim C9: the summary's trend-strength label (the source's `'强'`,
`'中'`, `'弱'` for strong/medium/weak) is strong exactly when the final `B4`
exceeds 70, medium exactly when it is in `(30, 70]`, and weak otherwise —
including at the boundaries `B4 = 70` (medium) and `B4 = 30` (weak) and when
the final `B4` is NaN (weak). -/
theorem claim_C9 (d : MarketData) (n : ℕ) :
    (summary_trend_strength d n = "强" ↔ ∃ v, B4 d (n - 1) = some v ∧ 70 < v) ∧
    (summary_trend_strength d n = "中" ↔
      ∃ v, B4 d (n - 1) = some v ∧ 30 < v ∧ v ≤ 70) ∧
    (summary_trend_strength d n = "弱" ↔
      (B4 d (n - 1) = none ∨ ∃ v, B4 d (n - 1) = some v ∧ v ≤ 30)) := by
  have ne1 : ("强" : String) ≠ "中" := by decide
  have ne2 : ("强" : String) ≠ "弱" := by decide
  have ne3 : ("中" : String) ≠ "弱" := by decide
  unfold summary_trend_strength trend_strength
  cases hb : B4 d (n - 1) with
  | none =>
    refine ⟨?_, ?_, ?_⟩ <;> simp [qgt, Ne.symm ne2, Ne.symm ne3]
  | some v =>
    by_cases h70 : (70 : ℚ) < v
    · have hq70 : qgt (some v) (some 70) = true := by simp [qgt, h70]
      have h30x : ¬ v ≤ 30 := by linarith
      have h70x : ¬ v ≤ 70 := not_le.mpr h70
      refine ⟨?_, ?_, ?_⟩ <;> simp [hq70, ne1, ne2, h70, h70x, h30x]
    · have hq70 : qgt (some v) (some 70) = false := by simp [qgt, h70]
      by_cases h30 : (30 : ℚ) < v
      · have hq30 : qgt (some v) (some 30) = true := by simp [qgt, h30]
        have h70y : v ≤ 70 := not_lt.mp h70
        have h30x : ¬ v ≤ 30 := not_le.mpr h30
        refine ⟨?_, ?_, ?_⟩ <;>
          simp [hq70, hq30, Ne.symm ne1, ne3, h70, h30, h70y, h30x]
      · have hq30 : qgt (some v) (some 30) = false := by simp [qgt, h30]
        have h30y : v ≤ 30 := not_lt.mp h30
        refine ⟨?_, ?_, ?_⟩ <;>
          simp [hq70, hq30, Ne.symm ne2, Ne.symm ne3, h70, h30, h30y]

/-- Claim C10: since the capital proxy is exactly `100 * Volume`, the
capital-weighted low-price estimate `VAR10` does not depend on Volume: at
every bar `t ≥ 1` with positive volume and finite lows,
`VAR10[t] = 0.9·(L[t] + 99·L[t-1]) / 100`. -/
theorem claim_C10 (d : MarketData) (t : ℕ) (lcur lprev vol : ℚ) (ht : 1 ≤ t)
    (hL : d.L t = some lcur) (hLp : d.L (t - 1) = some lprev)
    (hV : d.VOL t = some vol) (hvol : 0 < vol) :
    VAR10 d t = some (9 / 10 * (lcur + 99 * lprev) / 100) := by
  have href : calculate_ref d.L 1 t = some lprev := by
    unfold calculate_ref
    rw [if_pos ht, hLp]
  have hne : vol * 100 ≠ 0 := mul_ne_zero (ne_of_gt hvol) (by norm_num)
  unfold VAR10 VARF VARE CAPITAL
  simp only [sDiv, sAdd, sMul, sSub, sC, qdiv, qmul, qadd, qsub, hL, hV, href]
  rw [if_neg hne]
  congr 1
  field_simp
  ring

/-- Witness for claim C10 on the all-ones input at bar 1. -/
theorem claim_C10_witness : VAR10 dOnes 1 = some (9 / 10 * (1 + 99 * 1) / 100) :=
  claim_C10 dOnes 1 1 1 1 (by norm_num) rfl rfl rfl (by norm_num)

/-- Claim C1 is false on the code: at the all-ones index input, the code's
`V8` at bar 0 is `(1·2+1+1)/4 = 1`, whereas the claimed `V1`-construction
(weighted typical price × 10) gives 10. -/
theorem claim_C1_counterexample :
    V8 dOnes 0 = some 1 ∧
    specV8_claimed (fun _ => 1) (fun _ => 1) (fun _ => 1) 0 = 10 ∧
    ¬ V8 dOnes 0 = some (specV8_claimed (fun _ => 1) (fun _ => 1) (fun _ => 1) 0) := by
  refine ⟨?_, by norm_num [specV8_claimed], ?_⟩
  · show qdiv (qadd (qadd (qmul (some 1) (some 2)) (some 1)) (some 1)) (some 4) = some 1
    norm_num [qdiv, qadd, qmul]
  · intro h
    have h1 : qdiv (qadd (qadd (qmul (some 1) (some 2)) (some 1)) (some 1)) (some 4) =
        some (specV8_claimed (fun _ => 1) (fun _ => 1) (fun _ => 1) 0) := h
    rw [show specV8_claimed (fun _ => 1) (fun _ => 1) (fun _ => 1) 0 = 10 by
      norm_num [specV8_claimed]] at h1
    norm_num [qdiv, qadd, qmul] at h1

/-- Claim C1, amended to what the code computes: on every NaN-free index
input, `V8` is the index's weighted typical price *without* the ×10 factor,
`V9 = EMA(V8,13) − EMA(V8,34)`, `VA = EMA(V9,3)` (period 3, not 5), and
`VB = (V9 − VA)/2` (not `2·(V9−VA)·5.5`), with the spec-side EMA recursion. -/
theorem claim_C1_amended (d : MarketData) (xc xh xl : ℕ → ℚ)
    (hC : d.INDEXC = fun j => some (xc j)) (hH : d.INDEXH = fun j => some (xh j))
    (hL : d.INDEXL = fun j => some (xl j)) (i : ℕ) :
    V8 d i = some (specV8_amended xc xh xl i) ∧
    V9 d i = some (specV9_amended xc xh xl i) ∧
    VA d i = some (specVA_amended xc xh xl i) ∧
    VB d i = some (specVB_amended xc xh xl i) := by
  have hV8 : V8 d = fun j => some (specV8_amended xc xh xl j) := by
    funext j
    simp [V8, hC, hH, hL, sDiv, sAdd, sMul, sC, qdiv, qadd, qmul, specV8_amended]
  have e13 : calculate_ema (V8 d) 13 =
      fun j => some (emaRec (specV8_amended xc xh xl) (2 / 14) j) := by
    funext j
    rw [hV8, calculate_ema_allSome]
    norm_num
  have e34 : calculate_ema (V8 d) 34 =
      fun j => some (emaRec (specV8_amended xc xh xl) (2 / 35) j) := by
    funext j
    rw [hV8, calculate_ema_allSome]
    norm_num
  have hV9 : V9 d = fun j => some (specV9_amended xc xh xl j) := by
    funext j
    simp [V9, sSub, e13, e34, qsub, specV9_amended]
  have hVA : VA d = fun j => some (specVA_amended xc xh xl j) := by
    funext j
    unfold VA
    rw [hV9, calculate_ema_allSome]
    show some (emaRec (specV9_amended xc xh xl) (2 / ((3 : ℕ) + 1 : ℚ)) j) = _
    norm_num [specVA_amended]
  have hVB : VB d = fun j => some (specVB_amended xc xh xl j) := by
    funext j
    unfold VB
    rw [hV9, hVA]
    simp [sDiv, sSub, sC, qdiv, qsub, specVB_amended]
  exact ⟨congrFun hV8 i, congrFun hV9 i, congrFun hVA i, congrFun hVB i⟩

/-- Witness for the amended claim C1 on the all-ones index input at bar 0. -/
theorem claim_C1_amended_witness :
    V8 dOnes 0 = some (specV8_amended (fun _ => 1) (fun _ => 1) (fun _ => 1) 0) ∧
    V9 dOnes 0 = some (specV9_amended (fun _ => 1) (fun _ => 1) (fun _ => 1) 0) ∧
    VA dOnes 0 = some (specVA_amended (fun _ => 1) (fun _ => 1) (fun _ => 1) 0) ∧
    VB dOnes 0 = some (specVB_amended (fun _ => 1) (fun _ => 1) (fun _ => 1) 0) :=
  claim_C1_amended dOnes (fun _ => 1) (fun _ => 1) (fun _ => 1) rfl rfl rfl 0

/-- Claim C2: for every input pair that passes the upfront column
validation, the full indicator computation completes (no exception) and the
result bundle carries a cell — possibly a non-finite one — at every one of
the `n` positions of every stored series, for any history length `n` and any
data values (including NaN cells). -/
theorem claim_C2 (sc ic : List String) (d : MarketData) (n : ℕ)
    (h : validate sc ic = Except.ok ()) :
    ∃ b, compute sc ic d n = Except.ok b ∧ ∀ s ∈ b, s.2.length = n := by
  refine ⟨resultsBundle d n, ?_, ?_⟩
  · unfold compute
    rw [h]
  · intro s hs
    unfold resultsBundle at hs
    rcases List.mem_map.mp hs with ⟨p, hp, rfl⟩
    simp [materialize]

/-- Witness for claim C2: well-formed columns and the all-ones 3-bar input. -/
theorem claim_C2_witness :
    ∃ b, compute required_stock_cols required_index_cols dOnes 3 = Except.ok b ∧
      ∀ s ∈ b, s.2.length = 3 :=
  claim_C2 required_stock_cols required_index_cols dOnes 3 rfl

/-- Claim C7: constructing the engine fails (with the validation error)
exactly when a required security column (Open, High, Low, Close, Volume) or
a required index column (Open, High, Low, Close) is absent; the check looks
only at the column lists — never at the rows or their number — so no minimum
history length is validated, and on failure no bundle is produced. -/
theorem claim_C7 (sc ic : List String) (d : MarketData) (n : ℕ) :
    (∃ b, compute sc ic d n = Except.ok b) ↔
      ((∀ c ∈ required_stock_cols, sc.contains c = true) ∧
       (∀ c ∈ required_index_cols, ic.contains c = true)) := by
  unfold compute validate
  cases h1 : required_stock_cols.all fun c => sc.contains c with
  | false =>
    simp only [Bool.false_eq_true, if_false]
    constructor
    · rintro ⟨b, hb⟩
      exact Except.noConfusion hb
    · rintro ⟨hA, -⟩
      have hT : required_stock_cols.all (fun c => sc.contains c) = true :=
        List.all_eq_true.mpr hA
      rw [h1] at hT
      exact Bool.noConfusion hT
  | true =>
    cases h2 : required_index_cols.all fun c => ic.contains c with
    | false =>
      simp only [if_true, Bool.false_eq_true, if_false]
      constructor
      · rintro ⟨b, hb⟩
        exact Except.noConfusion hb
      · rintro ⟨-, hA⟩
        have hT : required_index_cols.all (fun c => ic.contains c) = true :=
          List.all_eq_true.mpr hA
        rw [h2] at hT
        exact Bool.noConfusion hT
    | true =>
      simp only [if_true]
      constructor
      · intro _
        exact ⟨List.all_eq_true.mp h1, List.all_eq_true.mp h2⟩
      · intro _
        exact ⟨resultsBundle d n, rfl⟩

end STIAS

